import Mathlib

/-!
Shallow embedding of the visa-agent conversational intake flow
(src/state.py, src/nodes/*.py, src/graph/builder.py).

Python dict/str/int truthiness is modelled explicitly: a slot value is an
`Option`; `none` models an absent key (the nodes never store Python `None`
inside `initial_info` dicts, they only omit keys), and truthiness of a
present value is non-emptiness for strings and non-zeroness for integers,
exactly as Python evaluates `if value:` / `if not d.get(k):`.

LLM calls, OCR and file I/O are external collaborators; each call site
takes its result as an explicit oracle argument (`Option` with `none`
modelling a raised exception), matching the try/except structure of the
source.
-/

namespace VisaAgent

/-- Python truthiness of an optional string slot value: absent or `""` is falsy. -/
def strTruthy : Option String → Bool
  | none => false
  | some s => !(s == "")

/-- Python truthiness of an optional integer slot value: absent or `0` is falsy. -/
def intTruthy : Option Int → Bool
  | none => false
  | some n => !(n == 0)

/-- Python truthiness of an optional bool flag (`state.get` returning `None` is falsy). -/
def boolTruthy : Option Bool → Bool
  | none => false
  | some b => b

/-- Python truthiness of an optional string state entry (e.g. `incomplete_session_id`). -/
def optStrTruthy : Option String → Bool
  | none => false
  | some s => !(s == "")

/-- Whether the first list is a prefix of the second. -/
def listPrefixOf : List Char → List Char → Bool
  | [], _ => true
  | _ :: _, [] => false
  | a :: as, b :: bs => a == b && listPrefixOf as bs

/-- Whether the first list occurs contiguously inside the second
(Python `needle in hay`). -/
def listInfixOf (needle : List Char) : List Char → Bool
  | [] => listPrefixOf needle []
  | b :: bs => listPrefixOf needle (b :: bs) || listInfixOf needle bs

/-- ASCII whitespace, the relevant fragment of Python `str.strip`. -/
def isSpaceChar (ch : Char) : Bool :=
  ch == ' ' || ch == '\t' || ch == '\n' || ch == '\r'

/-- Python `s.strip()` on the character list. -/
def trimList (l : List Char) : List Char :=
  ((l.dropWhile isSpaceChar).reverse.dropWhile isSpaceChar).reverse

/-- ASCII lowercasing of one character (Python `str.lower` on the
alphabets the router compares against). -/
def lowerChar (ch : Char) : Char :=
  if 'A' ≤ ch && ch ≤ 'Z' then Char.ofNat (ch.toNat + 32) else ch

/-- Python `s.lower()` on the character list. -/
def lowerList (l : List Char) : List Char := l.map lowerChar

/-- ASCII uppercasing of one character. -/
def upperChar (ch : Char) : Char :=
  if 'a' ≤ ch && ch ≤ 'z' then Char.ofNat (ch.toNat - 32) else ch

/-- Python `s.upper()` on the character list. -/
def upperList (l : List Char) : List Char := l.map upperChar

/-- Python `s.strip().lower()`. -/
def stripThenLower (s : String) : List Char := lowerList (trimList s.toList)

/-- Python `s.lower().strip()`. -/
def lowerThenStrip (s : String) : List Char := trimList (lowerList s.toList)

/-- Python `not s or not s.strip()`: empty or whitespace-only. -/
def isBlank (s : String) : Bool := (trimList s.toList).isEmpty

/-- The `initial_info` dict of src/state.py: the four basic slots.
A key is present iff the field is `some`; the collector only ever stores
truthy values or omits the key. -/
structure InitialInfo where
  country : Option String
  purpose_of_travel : Option String
  number_of_travelers : Option Int
  travel_dates : Option String
  deriving DecidableEq, Repr

/-- The empty dict `{}`. -/
def InitialInfo.empty : InitialInfo := ⟨none, none, none, none⟩

/-- Python truthiness of the dict itself: non-empty (some key present). -/
def InitialInfo.dictTruthy (i : InitialInfo) : Bool :=
  i.country.isSome || i.purpose_of_travel.isSome ||
    i.number_of_travelers.isSome || i.travel_dates.isSome

/-- The `VisaInfo` pydantic model of src/nodes/base_information_collector.py:
the structured extraction result, every field optional. -/
structure VisaInfo where
  country : Option String
  purpose_of_travel : Option String
  number_of_travelers : Option Int
  travel_dates : Option String
  deriving DecidableEq, Repr

/-- Lines 123-131 of src/nodes/base_information_collector.py:
`extracted_info = current_initial_info.copy()` followed by
`if extracted_data.X: extracted_info["X"] = extracted_data.X` per slot. -/
def mergeExtracted (current : InitialInfo) (extracted : VisaInfo) : InitialInfo :=
  { country := if strTruthy extracted.country then extracted.country else current.country
    purpose_of_travel :=
      if strTruthy extracted.purpose_of_travel then extracted.purpose_of_travel
      else current.purpose_of_travel
    number_of_travelers :=
      if intTruthy extracted.number_of_travelers then extracted.number_of_travelers
      else current.number_of_travelers
    travel_dates :=
      if strTruthy extracted.travel_dates then extracted.travel_dates
      else current.travel_dates }

/-- The required basic slot set, in the fixed order of the source. -/
def requiredSlots : List String :=
  ["country", "purpose_of_travel", "number_of_travelers", "travel_dates"]

/-- Lines 160-169 of src/nodes/base_information_collector.py (and the identical
blocks at lines 55-63 and in src/nodes/collection_resume.py lines 12-20):
a slot is appended to `missing_fields` iff `not info.get(slot)`. -/
def missingFields (info : InitialInfo) : List String :=
  (if strTruthy info.country then [] else ["country"]) ++
  (if strTruthy info.purpose_of_travel then [] else ["purpose_of_travel"]) ++
  (if intTruthy info.number_of_travelers then [] else ["number_of_travelers"]) ++
  (if strTruthy info.travel_dates then [] else ["travel_dates"])

/-- Truthiness of a named slot of `info` (Python `bool(info.get(slot))`). -/
def slotTruthy (info : InitialInfo) (slot : String) : Bool :=
  if slot == "country" then strTruthy info.country
  else if slot == "purpose_of_travel" then strTruthy info.purpose_of_travel
  else if slot == "number_of_travelers" then intTruthy info.number_of_travelers
  else if slot == "travel_dates" then strTruthy info.travel_dates
  else false

/-- Non-nullness of a named slot of `info` (key present, regardless of truthiness). -/
def slotNonNull (info : InitialInfo) (slot : String) : Bool :=
  if slot == "country" then info.country.isSome
  else if slot == "purpose_of_travel" then info.purpose_of_travel.isSome
  else if slot == "number_of_travelers" then info.number_of_travelers.isSome
  else if slot == "travel_dates" then info.travel_dates.isSome
  else false

/-- The spec's own missing-set definition (§8 "Missing-set correctness"):
`missing(S) = requiredSlots - set of slots whose value in S is non-null`.
Kept separate from `missingFields`, which is translated from the source,
so the two can be compared. -/
def missingSpec (info : InitialInfo) : List String :=
  requiredSlots.filter (fun k => !(slotNonNull info k))

example : mergeExtracted .empty ⟨some "France", none, none, none⟩ =
    ⟨some "France", none, none, none⟩ := by decide

example : missingFields ⟨some "France", none, some 2, none⟩ =
    ["purpose_of_travel", "travel_dates"] := by decide

/-! ## Messages

Exact bot wording is out of scope; bot messages are modelled by which
`AIMessage(...)` line of the source produced them, carrying the data that
is interpolated into the text. -/

/-- One assistant message, identified by its producing source line. -/
inductive BotMsg where
  /-- collector: "I didn't receive your response ..." -/
  | emptyInputPrompt
  /-- intent_analyser: "Hey, you haven't entered anything! ..." -/
  | emptyIntentPrompt
  /-- collector failure branch, retries exhausted: "I'm having difficulty processing your request ..." -/
  | apologyGiveUp
  /-- collector failure branch, first failure: "Sorry, I had an issue ..." -/
  | retryPrompt
  /-- collector: "Perfect! I have all the required information: ..." -/
  | allInfoSummary (info : InitialInfo)
  /-- collector: "I need a few more details: ..." listing the missing slots -/
  | askMissing (missing : List String)
  /-- collector restored-collection branch: "Let's continue with your visa application ..." -/
  | continueCollection (missing : List String)
  /-- greetings node reply -/
  | greetingsHello
  /-- visa_application node intro -/
  | visaAppIntro
  /-- general_enquiry reply (any of its four response branches) -/
  | enquiryReply
  /-- detailed_collector summary/request -/
  | detailedIntro
  /-- docs_parser reply (file handling is an external collaborator) -/
  | docsReply
  /-- collection_resume context-switch branch: "I answered your question! ..." -/
  | resumeOffer (missing : List String)
  /-- collection_resume legacy branch without session id: "No incomplete application found ..." -/
  | legacyNoIncomplete
  /-- collection_resume legacy branch with session id -/
  | legacyResumeOffer (missing : List String)
  /-- handle_resume_decision decline branch: "Are you sure you want to quit ..." -/
  | confirmQuit (info : InitialInfo)
  /-- resume_visa_application: "Great! Let's continue ..." -/
  | resumeOk
  /-- resume_visa_application fallback branch -/
  | resumeFallback
  /-- quit_visa_application: "No problem! Your visa application has been cancelled ..." -/
  | quitDone
  /-- handle_resume_decision unclear, offering state -/
  | clarifyResume
  /-- handle_resume_decision unclear, confirming state -/
  | clarifyQuit
  /-- handle_resume_decision fallback, offering state -/
  | clarifyFallbackResume
  /-- handle_resume_decision fallback, confirming state -/
  | clarifyFallbackQuit
  deriving DecidableEq, Repr

/-- A conversation message with its role. -/
inductive Msg where
  | user (text : String)
  | bot (m : BotMsg)
  deriving DecidableEq, Repr

/-- The `.content` string the router reads from a message. Bot wording is
abstracted by a fixed non-blank placeholder (never one of the affirmation
tokens), since the router only ever string-tests the latest user turn. -/
def Msg.contentStr : Msg → String
  | .user t => t
  | .bot _ => "assistant-message"

/-- Latest human message, scanning from the end as the collector does. -/
def latestHumanMessage (msgs : List Msg) : String :=
  match msgs.reverse.findSome?
      (fun m => match m with | .user t => some t | .bot _ => none) with
  | some t => t
  | none => ""

/-! ## Graph state (src/state.py) and per-node updates

`AppState` carries the channels the routed nodes read or write.  Bucket
channels (`passport_info`, ...) are declared with the `operator.add`
reducer in src/state.py, so an update appends to them; every other channel
is replaced when the update carries the key and kept otherwise. -/

/-- Node names appearing as `next` routing values in the source. -/
inductive NodeName where
  | intentAnalyserN | greetingsN | generalEnquiryN | visaApplicationN
  | baseCollectorN | collectionResumeN | handleResumeN | detailedCollectorN | docsN
  deriving DecidableEq, Repr

/-- An entry of an accumulating document bucket: either just the extracted
fields dict (`doc["content"]`) or the whole parsed-document record. -/
inductive BucketEntry where
  | fieldsOnly (fields : List (String × String))
  | wholeDoc (document_type : String) (content : List (String × String))
      (file_path : String) (summary : String)
  deriving DecidableEq, Repr

/-- The conversation state threaded through the graph. -/
structure AppState where
  messages : List Msg
  initial_info : InitialInfo
  collection_in_progress : Option Bool
  incomplete_session_id : Option String
  missing_fields : List String
  awaiting_user_response : Option Bool
  extraction_retry_count : Option Nat
  user_answer_category : Option String
  incomplete_initial_info : InitialInfo
  confirmation_pending : Option Bool
  previous_node : Option String
  passport_info : List BucketEntry
  accommodation_info : List BucketEntry
  financial_info : List BucketEntry
  document_uploads : List BucketEntry
  deriving DecidableEq, Repr

/-- The empty state at conversation start. -/
def initialState : AppState :=
  { messages := [], initial_info := .empty, collection_in_progress := none,
    incomplete_session_id := none, missing_fields := [],
    awaiting_user_response := none, extraction_retry_count := none,
    user_answer_category := none, incomplete_initial_info := .empty,
    confirmation_pending := none, previous_node := none,
    passport_info := [], accommodation_info := [], financial_info := [],
    document_uploads := [] }

/-- The dict a node returns: `none` models an absent key (channel kept),
`some v` a present key (channel replaced by `v`); message and bucket
channels append. -/
structure Update where
  messages : List Msg := []
  initial_info : Option InitialInfo := none
  collection_in_progress : Option Bool := none
  incomplete_session_id : Option (Option String) := none
  missing_fields : Option (List String) := none
  awaiting_user_response : Option Bool := none
  extraction_retry_count : Option Nat := none
  user_answer_category : Option (Option String) := none
  incomplete_initial_info : Option InitialInfo := none
  confirmation_pending : Option Bool := none
  previous_node : Option (Option String) := none
  next_node : Option NodeName := none
  passport_info : List BucketEntry := []
  accommodation_info : List BucketEntry := []
  financial_info : List BucketEntry := []
  document_uploads : List BucketEntry := []
  deriving Repr

/-- Apply a node update to the state (langgraph channel semantics:
`add_messages` / `operator.add` append, plain channels replace-if-present). -/
def applyUpdate (s : AppState) (u : Update) : AppState :=
  { messages := s.messages ++ u.messages
    initial_info := match u.initial_info with | some v => v | none => s.initial_info
    collection_in_progress :=
      match u.collection_in_progress with | some b => some b | none => s.collection_in_progress
    incomplete_session_id :=
      match u.incomplete_session_id with | some v => v | none => s.incomplete_session_id
    missing_fields := match u.missing_fields with | some v => v | none => s.missing_fields
    awaiting_user_response :=
      match u.awaiting_user_response with | some b => some b | none => s.awaiting_user_response
    extraction_retry_count :=
      match u.extraction_retry_count with | some n => some n | none => s.extraction_retry_count
    user_answer_category :=
      match u.user_answer_category with | some v => v | none => s.user_answer_category
    incomplete_initial_info :=
      match u.incomplete_initial_info with | some v => v | none => s.incomplete_initial_info
    confirmation_pending :=
      match u.confirmation_pending with | some b => some b | none => s.confirmation_pending
    previous_node := match u.previous_node with | some v => v | none => s.previous_node
    passport_info := s.passport_info ++ u.passport_info
    accommodation_info := s.accommodation_info ++ u.accommodation_info
    financial_info := s.financial_info ++ u.financial_info
    document_uploads := s.document_uploads ++ u.document_uploads }

/-! ## Collection engine (src/nodes/base_information_collector.py) -/

/-- Result of the structured-output extraction call: `success` with the
pydantic `VisaInfo`, or `failure` when `structured_llm.invoke` raised. -/
inductive ExtractionOutcome where
  | success (data : VisaInfo)
  | failure
  deriving DecidableEq, Repr

/-- Lines 100-202 of src/nodes/base_information_collector.py
(`extract_and_process_info`), with the LLM call outcome explicit. -/
def extract_and_process_info (current_initial_info : InitialInfo)
    (stateRetry : Option Nat) (outcome : ExtractionOutcome) : Update :=
  match outcome with
  | .failure =>
    let retry_count := stateRetry.getD 0
    if 1 ≤ retry_count then
      { messages := [.bot .apologyGiveUp]
        extraction_retry_count := some 0
        user_answer_category := some none }
    else
      { messages := [.bot .retryPrompt]
        extraction_retry_count := some (retry_count + 1)
        initial_info := some .empty
        awaiting_user_response := some true
        user_answer_category := some none }
  | .success extracted_data =>
    let extracted_info := mergeExtracted current_initial_info extracted_data
    let missing := missingFields extracted_info
    if missing.isEmpty then
      { messages := [.bot (.allInfoSummary extracted_info)]
        initial_info := some extracted_info
        awaiting_user_response := some false
        next_node := some .detailedCollectorN
        extraction_retry_count := some 0
        user_answer_category := some none }
    else
      { messages := [.bot (.askMissing missing)]
        initial_info := some extracted_info
        awaiting_user_response := some true
        extraction_retry_count := some 0
        user_answer_category := some none }

/-- Lines 46-94 of src/nodes/base_information_collector.py
(`handle_restored_collection`). -/
def handle_restored_collection (current_initial_info : InitialInfo) : Update :=
  let missing := missingFields current_initial_info
  if missing.isEmpty then
    { collection_in_progress := some false
      user_answer_category := some none
      messages := [.bot (.allInfoSummary current_initial_info)]
      initial_info := some current_initial_info
      awaiting_user_response := some false
      next_node := some .detailedCollectorN }
  else
    { collection_in_progress := some false
      user_answer_category := some none
      messages := [.bot (.continueCollection missing)]
      initial_info := some current_initial_info
      awaiting_user_response := some true }

/-- Lines 13-40 of src/nodes/base_information_collector.py
(`base_information_collector`): case dispatch on the state. -/
def base_information_collector (s : AppState) (outcome : ExtractionOutcome) : Update :=
  let current_initial_info := s.initial_info
  let user_message := latestHumanMessage s.messages
  if isBlank user_message then
    { messages := [.bot .emptyInputPrompt], awaiting_user_response := some true }
  else if s.user_answer_category == some "answer" then
    extract_and_process_info current_initial_info s.extraction_retry_count outcome
  else if boolTruthy s.collection_in_progress && !(optStrTruthy s.user_answer_category) then
    handle_restored_collection current_initial_info
  else
    extract_and_process_info current_initial_info s.extraction_retry_count outcome

/-! ## Intent router (src/nodes/intent_analyzer.py) -/

/-- The closed `Literal` taxonomy of `IntentClassification` (src/utils/prompts.py). -/
inductive IntentLabel where
  | greetingsI | generalEnquiryI | visaApplicationI | documentSubmissionI
  deriving DecidableEq, Repr

/-- Lines 6-37 of src/nodes/intent_analyzer.py (`classify_user_response`):
`llmResp` is the raw LLM reply content, `none` when the call raised. -/
def classify_user_response (llmResp : Option String) : String :=
  match llmResp with
  | none => "answer"
  | some content =>
    let result := stripThenLower content
    if listInfixOf "answer".toList result then "answer"
    else if listInfixOf "general_enquiry".toList result ||
        listInfixOf "general".toList result then
      "general_enquiry"
    else "answer"

/-- The fixed affirmation/negation token list of src/nodes/intent_analyzer.py line 83. -/
def resumeTokens : List String :=
  ["yes", "y", "no", "n", "continue", "proceed", "start over"]

/-- External LLM / file-store call results consumed during one turn. -/
structure Oracle where
  /-- reply content of the pending-question binary classification; `none` = raised -/
  pendingResp : Option String := none
  /-- structured full-intent classification; `none` = raised or failed validation -/
  intentResult : Option IntentLabel := none
  /-- slot-extraction call outcome in the collector -/
  extraction : ExtractionOutcome := .failure
  /-- reply content of `classify_resume_response`; `none` = raised -/
  resumeResp : Option String := none
  /-- legacy `load_incomplete_application` result; `none` = empty dict `{}` -/
  legacyLoad : Option (List String) := none

/-- Lines 39-104 of src/nodes/intent_analyzer.py (`intent_analyser`).
The outer `except` of the pending branch is unreachable here because
`classify_user_response` already catches its own exceptions. -/
def intent_analyser (s : AppState) (o : Oracle) : Update :=
  let user_message := (s.messages.getLast?.map Msg.contentStr).getD ""
  if isBlank user_message then
    { messages := [.bot .emptyIntentPrompt] }
  else if boolTruthy s.awaiting_user_response then
    let user_answer_category := classify_user_response o.pendingResp
    if user_answer_category == "answer" then
      { next_node := some .baseCollectorN, user_answer_category := some (some "answer") }
    else if user_answer_category == "general_enquiry" then
      { next_node := some .generalEnquiryN
        user_answer_category := some (some "general_enquiry")
        collection_in_progress := some true
        incomplete_initial_info := some s.initial_info
        previous_node := some (some "base_information_collector") }
    else
      { next_node := some .baseCollectorN, user_answer_category := some (some "answer") }
  else if optStrTruthy s.incomplete_session_id &&
      (resumeTokens.map String.toList).contains (lowerThenStrip user_message) then
    { next_node := some .handleResumeN }
  else
    match o.intentResult with
    | some .greetingsI => { next_node := some .greetingsN }
    | some .generalEnquiryI => { next_node := some .generalEnquiryN }
    | some .documentSubmissionI => { next_node := some .docsN }
    | some .visaApplicationI => { next_node := some .visaApplicationN }
    | none => { next_node := some .generalEnquiryN }

/-! ## Resume/abandon resolver (src/nodes/collection_resume.py) -/

/-- Lines 6-74 of src/nodes/collection_resume.py (`collection_resume`). -/
def collection_resume (s : AppState) : Update :=
  if boolTruthy s.collection_in_progress && s.incomplete_initial_info.dictTruthy then
    let missing := missingFields s.incomplete_initial_info
    { messages := [.bot (.resumeOffer missing)], next_node := some .handleResumeN }
  else if !(optStrTruthy s.incomplete_session_id) then
    { messages := [.bot .legacyNoIncomplete], next_node := some .baseCollectorN }
  else
    { messages := [.bot (.legacyResumeOffer s.missing_fields)]
      next_node := some .handleResumeN }

/-- Lines 76-107 of src/nodes/collection_resume.py (`classify_resume_response`):
returns `response.content.strip().upper()`, or "UNCLEAR" when the call raised. -/
def classify_resume_response (llmResp : Option String) : List Char :=
  match llmResp with
  | none => "UNCLEAR".toList
  | some content => upperList (trimList content.toList)

/-- Lines 181-221 of src/nodes/collection_resume.py (`resume_visa_application`).
The legacy branch loads a saved session file (external collaborator,
modelled by `legacyLoad` carrying the saved `missing_fields`; the saved
`collected_data` holds only the accumulating bucket lists, never the four
basic slots, so it cannot touch `initial_info`). -/
def resume_visa_application (s : AppState) (legacyLoad : Option (List String)) : Update :=
  if s.incomplete_initial_info.dictTruthy then
    { messages := [.bot .resumeOk]
      collection_in_progress := some true
      initial_info := some s.incomplete_initial_info
      confirmation_pending := some false
      user_answer_category := some none
      next_node := some .baseCollectorN }
  else if optStrTruthy s.incomplete_session_id then
    match legacyLoad with
    | some savedMissing =>
      { messages := [.bot .resumeOk]
        collection_in_progress := some true
        missing_fields := some savedMissing
        confirmation_pending := some false
        next_node := some .baseCollectorN }
    | none =>
      { messages := [.bot .resumeFallback]
        collection_in_progress := some false
        confirmation_pending := some false
        next_node := some .baseCollectorN }
  else
    { messages := [.bot .resumeFallback]
      collection_in_progress := some false
      confirmation_pending := some false
      next_node := some .baseCollectorN }

/-- Lines 223-236 of src/nodes/collection_resume.py (`quit_visa_application`). -/
def quit_visa_application : Update :=
  { messages := [.bot .quitDone]
    awaiting_user_response := some false
    initial_info := some .empty
    collection_in_progress := some false
    incomplete_initial_info := some .empty
    confirmation_pending := some false
    user_answer_category := some none
    previous_node := some none
    incomplete_session_id := some none
    next_node := some .intentAnalyserN }

/-- Lines 123-179 of src/nodes/collection_resume.py (`handle_resume_decision`). -/
def handle_resume_decision (s : AppState) (o : Oracle) : Update :=
  let incomplete_info := s.incomplete_initial_info
  let confirmation_pending := boolTruthy s.confirmation_pending
  let intent := classify_resume_response o.resumeResp
  if intent == "RESUME".toList then
    resume_visa_application s o.legacyLoad
  else if intent == "DECLINE".toList && !confirmation_pending then
    { messages := [.bot (.confirmQuit incomplete_info)]
      confirmation_pending := some true
      next_node := some .handleResumeN }
  else if intent == "CONFIRMED_QUIT".toList && confirmation_pending then
    quit_visa_application
  else if intent == "WANT_TO_CONTINUE".toList && confirmation_pending then
    resume_visa_application s o.legacyLoad
  else if intent == "UNCLEAR".toList then
    if confirmation_pending then
      { messages := [.bot .clarifyQuit], next_node := some .handleResumeN }
    else
      { messages := [.bot .clarifyResume], next_node := some .handleResumeN }
  else
    if confirmation_pending then
      { messages := [.bot .clarifyFallbackQuit], next_node := some .handleResumeN }
    else
      { messages := [.bot .clarifyFallbackResume], next_node := some .handleResumeN }

/-! ## Remaining nodes -/

/-- src/nodes/general_enquiry.py (`general_enquiry`): the reply wording is
external; every branch, including the error branch, preserves the
collection context keys exactly when `collection_in_progress` is truthy
(lines 113-118 and 127-131). -/
def general_enquiry (s : AppState) : Update :=
  if boolTruthy s.collection_in_progress then
    { messages := [.bot .enquiryReply]
      collection_in_progress := some true
      incomplete_initial_info := some s.incomplete_initial_info
      previous_node := some (some (s.previous_node.getD "base_information_collector")) }
  else
    { messages := [.bot .enquiryReply] }

/-- src/nodes/greetings.py. -/
def greetingsNode : Update := { messages := [.bot .greetingsHello] }

/-- src/nodes/visa_application.py. -/
def visa_application : Update :=
  { messages := [.bot .visaAppIntro], next_node := some .baseCollectorN }

/-- src/nodes/detailed_collector.py: emits the summary/upload request only. -/
def detailed_collector : Update := { messages := [.bot .detailedIntro] }

/-! ## Document router (src/nodes/docs_parser.py lines 201-231) -/

/-- A parsed document as produced by `extract_document_info`. -/
structure ParsedDoc where
  document_type : String
  content : List (String × String)
  file_path : String
  summary : String
  deriving DecidableEq, Repr

/-- Lines 201-231 of src/nodes/docs_parser.py (`route_documents_to_state`):
the `state_updates` dict, one list per bucket key.  The three known types
append `doc["content"]`; any other type appends the whole `doc` record. -/
structure DocRoute where
  passport_info : List BucketEntry := []
  accommodation_info : List BucketEntry := []
  financial_info : List BucketEntry := []
  document_uploads : List BucketEntry := []
  deriving DecidableEq, Repr

def routeOneDoc (acc : DocRoute) (doc : ParsedDoc) : DocRoute :=
  if doc.document_type == "passport" then
    { acc with passport_info := acc.passport_info ++ [.fieldsOnly doc.content] }
  else if doc.document_type == "hotel_booking" then
    { acc with accommodation_info := acc.accommodation_info ++ [.fieldsOnly doc.content] }
  else if doc.document_type == "bank_statement" then
    { acc with financial_info := acc.financial_info ++ [.fieldsOnly doc.content] }
  else
    { acc with document_uploads := acc.document_uploads ++
        [.wholeDoc doc.document_type doc.content doc.file_path doc.summary] }

def route_documents_to_state (documents : List ParsedDoc) : DocRoute :=
  documents.foldl routeOneDoc {}

/-- Applying a `DocRoute` to the state: each bucket channel has the
`operator.add` reducer (src/state.py), so the routed lists append. -/
def applyDocRoute (s : AppState) (r : DocRoute) : AppState :=
  { s with passport_info := s.passport_info ++ r.passport_info
           accommodation_info := s.accommodation_info ++ r.accommodation_info
           financial_info := s.financial_info ++ r.financial_info
           document_uploads := s.document_uploads ++ r.document_uploads }

/-- Document-submission turns in the graph model: the OCR pipeline is an
external collaborator; a successful run routes its parsed documents. -/
def docsNode : Update := { messages := [.bot .docsReply] }

/-! ## Graph wiring (src/graph/builder.py)

`next` is not a declared channel of src/state.py, so a node's routing
value cannot outlive its own superstep; each conditional edge therefore
reads the `next` value of the update just produced, with the default the
builder declares (`greetings` after the router, `__end__` elsewhere). -/

/-- One node execution. -/
def runNode (s : AppState) (o : Oracle) : NodeName → Update
  | .intentAnalyserN => intent_analyser s o
  | .greetingsN => greetingsNode
  | .generalEnquiryN => general_enquiry s
  | .visaApplicationN => visa_application
  | .baseCollectorN => base_information_collector s o.extraction
  | .collectionResumeN => collection_resume s
  | .handleResumeN => handle_resume_decision s o
  | .detailedCollectorN => detailed_collector
  | .docsN => docsNode

/-- The conditional edge leaving a node (src/graph/builder.py). -/
def routeAfter (n : NodeName) (s2 : AppState) (u : Update) : Option NodeName :=
  match n with
  | .intentAnalyserN => some (u.next_node.getD .greetingsN)
  | .greetingsN => none
  | .generalEnquiryN =>
      if boolTruthy s2.collection_in_progress then some .collectionResumeN else none
  | .visaApplicationN => some .baseCollectorN
  | .baseCollectorN => u.next_node
  | .collectionResumeN => u.next_node
  | .handleResumeN => u.next_node
  | .detailedCollectorN => some .docsN
  | .docsN => none

/-- Run the graph from a node until an edge ends the turn (fuel-bounded;
every concrete turn of interest finishes well within the bound). -/
def runGraph : Nat → AppState → Oracle → NodeName → AppState
  | 0, s, _, _ => s
  | fuel + 1, s, o, n =>
    let u := runNode s o n
    let s2 := applyUpdate s u
    match routeAfter n s2 u with
    | none => s2
    | some n2 => runGraph fuel s2 o n2

/-- One user turn: append the user message, enter at the router
(`START → intent_analyser`), run to the end of the turn. -/
def processTurn (s : AppState) (userText : String) (o : Oracle) : AppState :=
  runGraph 8 { s with messages := s.messages ++ [.user userText] } o .intentAnalyserN

/-- States reachable from the empty conversation by whole user turns. -/
inductive Reachable : AppState → Prop where
  | init : Reachable initialState
  | step (s : AppState) (userText : String) (o : Oracle) :
      Reachable s → Reachable (processTurn s userText o)

/-! ## Helper lemmas -/

theorem slotTruthy_country (S : InitialInfo) :
    slotTruthy S "country" = strTruthy S.country := rfl

theorem slotTruthy_purpose (S : InitialInfo) :
    slotTruthy S "purpose_of_travel" = strTruthy S.purpose_of_travel := rfl

theorem slotTruthy_travelers (S : InitialInfo) :
    slotTruthy S "number_of_travelers" = intTruthy S.number_of_travelers := rfl

theorem slotTruthy_dates (S : InitialInfo) :
    slotTruthy S "travel_dates" = strTruthy S.travel_dates := rfl

/-- The missing-field computation of the source equals the required slot
list filtered by slot falsiness. -/
theorem missingFields_eq_filter (S : InitialInfo) :
    missingFields S = requiredSlots.filter (fun k => !(slotTruthy S k)) := by
  simp only [requiredSlots, List.filter_cons, List.filter_nil,
    slotTruthy_country, slotTruthy_purpose, slotTruthy_travelers, slotTruthy_dates]
  cases hc : strTruthy S.country <;> cases hp : strTruthy S.purpose_of_travel <;>
    cases hn : intTruthy S.number_of_travelers <;> cases hd : strTruthy S.travel_dates <;>
    simp [missingFields, hc, hp, hn, hd]

/-- Truthiness of the travelers slot pins membership in the missing list. -/
theorem travelers_missing_of_falsy (S : InitialInfo)
    (h : intTruthy S.number_of_travelers = false) :
    "number_of_travelers" ∈ missingFields S ∧ missingFields S ≠ [] := by
  cases hc : strTruthy S.country <;> cases hp : strTruthy S.purpose_of_travel <;>
    cases hd : strTruthy S.travel_dates <;> simp [missingFields, hc, hp, hd, h]

/-! ## Claims -/

/-- Claim C1, counterexample: the merge of `extract_and_process_info`
(lines 123-131) is not fill-absent-only.  With current fields
`S = ⟨country := "France"⟩` and extraction result `R = ⟨country := "Germany"⟩`,
the slot `country`, already non-null in `S`, is changed to `R`'s value. -/
theorem merge_overwrites_filled_slot :
    (InitialInfo.country ⟨some "France", none, none, none⟩).isSome = true ∧
    (mergeExtracted ⟨some "France", none, none, none⟩
        ⟨some "Germany", none, none, none⟩).country ≠
      InitialInfo.country ⟨some "France", none, none, none⟩ ∧
    (mergeExtracted ⟨some "France", none, none, none⟩
        ⟨some "Germany", none, none, none⟩).country = some "Germany" := by
  decide

/-- Claim C1 (amended): merging an extraction result `R` into current
fields `S` is last-truthy-writer-wins, slot by slot: every slot whose
value in `R` is truthy (non-null, non-empty, non-zero) is set to `R`'s
value — overwriting `S` even when `S` already holds a value — and every
other slot keeps `S`'s value; in particular every slot null in `S` and
truthy in `R` is filled with `R`'s value. -/
theorem merge_last_truthy_writer_wins (S : InitialInfo) (R : VisaInfo) :
    mergeExtracted S R =
      ⟨if strTruthy R.country then R.country else S.country,
       if strTruthy R.purpose_of_travel then R.purpose_of_travel else S.purpose_of_travel,
       if intTruthy R.number_of_travelers then R.number_of_travelers else S.number_of_travelers,
       if strTruthy R.travel_dates then R.travel_dates else S.travel_dates⟩ := rfl

/-- Claim C3, counterexample: the code computes missingness by Python
truthiness, not by non-nullness.  At `S` with all four slots non-null but
`number_of_travelers = 0`, the spec's missing set (`requiredSlots` minus
non-null slots) is empty, yet the code reports `number_of_travelers`
missing, and a successful extraction that adds nothing does not hand off
to the next stage. -/
theorem missing_set_truthiness_counterexample :
    missingSpec ⟨some "France", some "tourism", some 0, some "01/01/26 to 02/01/26"⟩ = [] ∧
    missingFields ⟨some "France", some "tourism", some 0, some "01/01/26 to 02/01/26"⟩ =
      ["number_of_travelers"] ∧
    (extract_and_process_info
        ⟨some "France", some "tourism", some 0, some "01/01/26 to 02/01/26"⟩
        (some 0) (.success ⟨none, none, none, none⟩)).next_node = none := by
  decide

/-- Claim C3 (amended): for every fields mapping `S`, the computed missing
set equals the required slot list minus the slots whose value in `S` is
truthy (non-null and neither `0` nor the empty string); after a successful
extraction the collector hands off to the next stage (`detailed_collector`)
iff that missing set of the merged fields is empty, and otherwise asks for
all missing slots in one message and sets `awaiting_user_response`. -/
theorem missing_set_correctness (S : InitialInfo) (R : VisaInfo) (r : Option Nat) :
    missingFields S = requiredSlots.filter (fun k => !(slotTruthy S k)) ∧
    (missingFields (mergeExtracted S R) = [] →
      (extract_and_process_info S r (.success R)).next_node = some .detailedCollectorN ∧
      (extract_and_process_info S r (.success R)).awaiting_user_response = some false) ∧
    (missingFields (mergeExtracted S R) ≠ [] →
      (extract_and_process_info S r (.success R)).next_node = none ∧
      (extract_and_process_info S r (.success R)).awaiting_user_response = some true ∧
      (extract_and_process_info S r (.success R)).messages =
        [.bot (.askMissing (missingFields (mergeExtracted S R)))]) := by
  refine ⟨missingFields_eq_filter S, ?_, ?_⟩ <;> intro hm <;>
    simp [extract_and_process_info, hm]

/-- Claim C3, witness for the amended theorem at a concrete input. -/
theorem missing_set_correctness_witness :
    missingFields ⟨some "France", none, none, none⟩ =
        requiredSlots.filter
          (fun k => !(slotTruthy (⟨some "France", none, none, none⟩ : InitialInfo) k)) ∧
    (extract_and_process_info ⟨some "France", none, none, none⟩ (some 0)
        (.success ⟨none, some "tourism", some 2, some "01/01/26 to 02/01/26"⟩)).next_node =
      some .detailedCollectorN := by
  refine ⟨(missing_set_correctness ⟨some "France", none, none, none⟩
    ⟨none, some "tourism", some 2, some "01/01/26 to 02/01/26"⟩ (some 0)).1, ?_⟩
  exact ((missing_set_correctness ⟨some "France", none, none, none⟩
    ⟨none, some "tourism", some 2, some "01/01/26 to 02/01/26"⟩ (some 0)).2.1 (by decide)).1

/-- Claim C10: the merge and the missing-field computation both test slot
presence by Python truthiness.  An extracted `number_of_travelers = 0` or
an extracted empty-string `country` is never merged; a stored `0` or empty
string counts as missing; and a merged state with `number_of_travelers = 0`
can never satisfy the completion condition (the collector keeps asking
instead of handing off). -/
theorem falsy_values_treated_as_absent (cur S : InitialInfo) (R : VisaInfo) (r : Option Nat) :
    (R.number_of_travelers = some 0 →
      (mergeExtracted cur R).number_of_travelers = cur.number_of_travelers) ∧
    (R.country = some "" → (mergeExtracted cur R).country = cur.country) ∧
    (S.number_of_travelers = some 0 → "number_of_travelers" ∈ missingFields S) ∧
    (S.country = some "" → "country" ∈ missingFields S) ∧
    ((mergeExtracted S R).number_of_travelers = some 0 →
      (extract_and_process_info S r (.success R)).next_node = none ∧
      (extract_and_process_info S r (.success R)).awaiting_user_response = some true) := by
  refine ⟨?_, ?_, ?_, ?_, ?_⟩
  · intro h; simp [mergeExtracted, h, intTruthy]
  · intro h; simp [mergeExtracted, h, strTruthy]
  · intro h
    have : intTruthy S.number_of_travelers = false := by simp [h, intTruthy]
    exact (travelers_missing_of_falsy S this).1
  · intro h
    have hc : strTruthy S.country = false := by simp [h, strTruthy]
    cases hp : strTruthy S.purpose_of_travel <;> cases hn : intTruthy S.number_of_travelers <;>
      cases hd : strTruthy S.travel_dates <;> simp [missingFields, hc, hp, hn, hd]
  · intro h
    have hf : intTruthy (mergeExtracted S R).number_of_travelers = false := by
      simp [h, intTruthy]
    have hne := (travelers_missing_of_falsy (mergeExtracted S R) hf).2
    simp [extract_and_process_info, hne]

/-- Claim C10, witness at concrete inputs. -/
theorem falsy_values_treated_as_absent_witness :
    (mergeExtracted ⟨some "France", none, none, none⟩
        ⟨some "", none, some 0, none⟩).number_of_travelers = none ∧
    "number_of_travelers" ∈ missingFields ⟨some "France", some "tourism", some 0, some "x"⟩ := by
  constructor
  · exact (falsy_values_treated_as_absent ⟨some "France", none, none, none⟩
      ⟨some "France", some "tourism", some 0, some "x"⟩
      ⟨some "", none, some 0, none⟩ (some 0)).1 rfl
  · exact (falsy_values_treated_as_absent ⟨some "France", none, none, none⟩
      ⟨some "France", some "tourism", some 0, some "x"⟩
      ⟨some "", none, some 0, none⟩ (some 0)).2.2.1 rfl

/-- Claim C2, counterexample: the exhaustion branch (retry count already
at the bound 1) emits the apology and resets the counter but does NOT
clear the collected fields — its update carries no `initial_info` key, so
the state keeps `country = "France"`.  It is the FIRST failure branch that
clears the fields to `{}`. -/
theorem exhaustion_does_not_clear_fields :
    (extract_and_process_info ⟨some "France", none, none, none⟩ (some 1) .failure).messages =
      [.bot .apologyGiveUp] ∧
    (extract_and_process_info ⟨some "France", none, none, none⟩
        (some 1) .failure).extraction_retry_count = some 0 ∧
    (extract_and_process_info ⟨some "France", none, none, none⟩
        (some 1) .failure).initial_info = none ∧
    (applyUpdate
        { initialState with
            initial_info := ⟨some "France", none, none, none⟩
            extraction_retry_count := some 1 }
        (extract_and_process_info ⟨some "France", none, none, none⟩
          (some 1) .failure)).initial_info = ⟨some "France", none, none, none⟩ ∧
    (extract_and_process_info ⟨some "France", none, none, none⟩
        (some 0) .failure).initial_info = some InitialInfo.empty := by
  decide

/-- Claim C2 (amended): on an extraction failure with the stored retry
count already at or above the bound 1, the engine emits the apology,
resets `extraction_retry_count` to 0 and leaves the collected fields
untouched (the update has no `initial_info` key); it is the first failure
(count 0) that clears the fields entirely to the empty mapping, increments
the counter, and asks the user to retry.  After two consecutive failures
the observable outcome of Scenario D (empty fields, counter 0, apology)
therefore still holds, but the clearing happens at the first failure, not
at exhaustion. -/
theorem retry_exhaustion_behavior (cur : InitialInfo) (r : Option Nat) (s : AppState) :
    (1 ≤ r.getD 0 →
      (extract_and_process_info cur r .failure).messages = [.bot .apologyGiveUp] ∧
      (extract_and_process_info cur r .failure).extraction_retry_count = some 0 ∧
      (extract_and_process_info cur r .failure).initial_info = none ∧
      (applyUpdate s (extract_and_process_info cur r .failure)).initial_info =
        s.initial_info) ∧
    (r.getD 0 = 0 →
      (extract_and_process_info cur r .failure).messages = [.bot .retryPrompt] ∧
      (extract_and_process_info cur r .failure).extraction_retry_count = some 1 ∧
      (extract_and_process_info cur r .failure).initial_info = some InitialInfo.empty ∧
      (extract_and_process_info cur r .failure).awaiting_user_response = some true) := by
  constructor <;> intro h <;> simp [extract_and_process_info, h, applyUpdate]

/-- Claim C2, witness for the amended theorem at retry counts 1 and 0. -/
theorem retry_exhaustion_behavior_witness :
    (extract_and_process_info ⟨some "France", none, none, none⟩ (some 1) .failure).initial_info =
      none ∧
    (extract_and_process_info ⟨some "France", none, none, none⟩ (some 0) .failure).initial_info =
      some InitialInfo.empty :=
  ⟨((retry_exhaustion_behavior ⟨some "France", none, none, none⟩ (some 1) initialState).1
      (by decide)).2.2.1,
   ((retry_exhaustion_behavior ⟨some "France", none, none, none⟩ (some 0) initialState).2
      rfl).2.2.1⟩

/-- The retry-count value written by `extract_and_process_info`, as a
recurrence: reset on success, incremented on a first failure, reset (with
apology) on a failure at the bound. -/
def retryAfter (c : Nat) : ExtractionOutcome → Nat
  | .success _ => 0
  | .failure => if 1 ≤ c then 0 else c + 1

/-- Folding the recurrence over a sequence of consecutive extraction outcomes. -/
def retryTrace (c : Nat) : List ExtractionOutcome → Nat
  | [] => c
  | o :: rest => retryTrace (retryAfter c o) rest

theorem retryAfter_agrees (cur : InitialInfo) (c : Nat) (o : ExtractionOutcome) :
    (extract_and_process_info cur (some c) o).extraction_retry_count =
      some (retryAfter c o) := by
  cases o with
  | success d =>
    simp only [extract_and_process_info, retryAfter]
    split <;> rfl
  | failure =>
    simp only [extract_and_process_info, retryAfter, Option.getD_some]
    split <;> simp

theorem retryAfter_le_one (c : Nat) (o : ExtractionOutcome) : retryAfter c o ≤ 1 := by
  cases o with
  | success d => simp [retryAfter]
  | failure =>
    simp only [retryAfter]
    split <;> omega

theorem retryTrace_le_one (outcomes : List ExtractionOutcome) (c : Nat) (h : c ≤ 1) :
    retryTrace c outcomes ≤ 1 := by
  induction outcomes generalizing c with
  | nil => simpa [retryTrace] using h
  | cons o rest ih => simpa [retryTrace] using ih (retryAfter c o) (retryAfter_le_one c o)

/-- Claim C4: the retry counter written by the collector is reset to 0 by
every successful extraction (never incremented on success), incremented
only by a failure at count 0, and reset with an apology by a failure at
count 1; consequently along every sequence of consecutive extraction
outcomes the stored counter never exceeds the bound 1. -/
theorem retry_counter_dynamics (outcomes : List ExtractionOutcome)
    (cur : InitialInfo) (c : Nat) (d : VisaInfo) :
    (extract_and_process_info cur (some c) (.success d)).extraction_retry_count = some 0 ∧
    (c = 0 →
      (extract_and_process_info cur (some c) .failure).extraction_retry_count = some 1 ∧
      (extract_and_process_info cur (some c) .failure).messages = [.bot .retryPrompt]) ∧
    (1 ≤ c →
      (extract_and_process_info cur (some c) .failure).extraction_retry_count = some 0 ∧
      (extract_and_process_info cur (some c) .failure).messages = [.bot .apologyGiveUp]) ∧
    (∀ c2 o, (extract_and_process_info cur (some c2) o).extraction_retry_count =
      some (retryAfter c2 o)) ∧
    retryTrace 0 outcomes ≤ 1 ∧
    (∀ k, k ≤ 1 → retryTrace k outcomes ≤ 1) := by
  refine ⟨?_, ?_, ?_, fun c2 o => retryAfter_agrees cur c2 o,
    retryTrace_le_one outcomes 0 (by omega), fun k hk => retryTrace_le_one outcomes k hk⟩
  · have := retryAfter_agrees cur c (.success d)
    simpa [retryAfter] using this
  · intro h; subst h; simp [extract_and_process_info]
  · intro h; simp [extract_and_process_info, h]

/-- Claim C4, witness: the dynamics at counts 0 and 1 and a concrete
three-failure trace. -/
theorem retry_counter_dynamics_witness :
    (extract_and_process_info InitialInfo.empty (some 0) .failure).extraction_retry_count =
      some 1 ∧
    (extract_and_process_info InitialInfo.empty (some 1) .failure).extraction_retry_count =
      some 0 ∧
    retryTrace 0 [.failure, .failure, .failure] ≤ 1 :=
  ⟨((retry_counter_dynamics [] InitialInfo.empty 0 ⟨none, none, none, none⟩).2.1 rfl).1,
   ((retry_counter_dynamics [] InitialInfo.empty 1 ⟨none, none, none, none⟩).2.2.1
      (by omega)).1,
   (retry_counter_dynamics [.failure, .failure, .failure] InitialInfo.empty 0
      ⟨none, none, none, none⟩).2.2.2.2.1⟩

/-- Claim C5, counterexample: the resume update of
`resume_visa_application` (context-switch branch) carries no
`incomplete_initial_info` key, so the snapshot is NOT cleared: after a
resume from snapshot `{country: France}` the state still holds that
snapshot (truthy), contradicting "clears incomplete_snapshot". -/
theorem resume_does_not_clear_snapshot :
    (resume_visa_application
        { initialState with incomplete_initial_info := ⟨some "France", none, none, none⟩ }
        none).incomplete_initial_info = none ∧
    (applyUpdate
        { initialState with incomplete_initial_info := ⟨some "France", none, none, none⟩ }
        (resume_visa_application
          { initialState with incomplete_initial_info := ⟨some "France", none, none, none⟩ }
          none)).incomplete_initial_info = ⟨some "France", none, none, none⟩ ∧
    InitialInfo.dictTruthy ⟨some "France", none, none, none⟩ = true := by
  decide

/-- Claim C5 (amended): when the resolver classifies the reply as resume
and the snapshot is non-empty, the update sets the active fields wholesale
to `incomplete_snapshot` (replacement), sets `collection_in_progress=true`
and clears `confirmation_pending`, but leaves `incomplete_snapshot` set
(the update carries no key for it).  Invoking resume twice in a row is
nonetheless a no-op on fields the second time — not because the snapshot
was cleared, but because the same still-present snapshot is assigned
again. -/
theorem resume_semantics (s : AppState) (ld : Option (List String))
    (h : s.incomplete_initial_info.dictTruthy = true) :
    (resume_visa_application s ld).initial_info = some s.incomplete_initial_info ∧
    (resume_visa_application s ld).collection_in_progress = some true ∧
    (resume_visa_application s ld).confirmation_pending = some false ∧
    (resume_visa_application s ld).incomplete_initial_info = none ∧
    (applyUpdate s (resume_visa_application s ld)).incomplete_initial_info =
      s.incomplete_initial_info ∧
    (applyUpdate (applyUpdate s (resume_visa_application s ld))
        (resume_visa_application (applyUpdate s (resume_visa_application s ld))
          ld)).initial_info =
      (applyUpdate s (resume_visa_application s ld)).initial_info := by
  simp [resume_visa_application, h, applyUpdate]

/-- Claim C5, witness for the amended theorem at a concrete snapshot. -/
theorem resume_semantics_witness :
    (resume_visa_application
        { initialState with incomplete_initial_info := ⟨some "France", none, none, none⟩ }
        none).initial_info = some ⟨some "France", none, none, none⟩ :=
  (resume_semantics
    { initialState with incomplete_initial_info := ⟨some "France", none, none, none⟩ }
    none (by decide)).1

/-- Claim C6, counterexample: the router's affirmation-token override
tests `incomplete_session_id`, not the incomplete snapshot.  With the
snapshot set (truthy), no session id, and the message "yes" (an
affirmation token), the router still performs full intent classification
and routes to its result instead of the Resume/Abandon Resolver. -/
theorem snapshot_does_not_trigger_override :
    (intent_analyser
        { initialState with
            messages := [.user "yes"]
            incomplete_initial_info := ⟨some "France", none, none, none⟩ }
        { intentResult := some .generalEnquiryI }).next_node = some .generalEnquiryN ∧
    InitialInfo.dictTruthy ⟨some "France", none, none, none⟩ = true ∧
    (resumeTokens.map String.toList).contains (lowerThenStrip "yes") = true := by
  decide

/-- Claim C6 (amended): the override is keyed on `incomplete_session_id`
(the legacy saved-session marker), not on the snapshot: for every state
whose last message is a non-blank user message, with no pending question,
a truthy `incomplete_session_id`, and the message (lowercased, stripped)
in the fixed affirmation/negation token list, the router routes directly
to `handle_resume_decision` — for every classification oracle, so
classification is bypassed and no answer category is set. -/
theorem session_id_token_override (s : AppState) (o : Oracle) (t : String)
    (hlast : s.messages.getLast? = some (.user t))
    (hblank : isBlank t = false)
    (hawait : boolTruthy s.awaiting_user_response = false)
    (hsid : optStrTruthy s.incomplete_session_id = true)
    (htok : lowerThenStrip t ∈ resumeTokens.map String.toList) :
    (intent_analyser s o).next_node = some .handleResumeN ∧
    (intent_analyser s o).user_answer_category = none := by
  simp [intent_analyser, hlast, Msg.contentStr, hblank, hawait, hsid, htok]

/-- Claim C6, witness for the amended theorem: session id set, message "yes". -/
theorem session_id_token_override_witness :
    (intent_analyser
        { initialState with
            messages := [.user "yes"]
            incomplete_session_id := some "ab12cd34" }
        { intentResult := some .generalEnquiryI }).next_node = some .handleResumeN :=
  (session_id_token_override
    { initialState with
        messages := [.user "yes"]
        incomplete_session_id := some "ab12cd34" }
    { intentResult := some .generalEnquiryI } "yes" rfl (by decide) rfl (by decide)
    (by decide)).1

/-- Claim C8: classification failures default safely.  The pending-question
binary classifier returns "answer" both when the LLM call raises and when
the reply contains no recognized label, and the router then routes to the
collector with category "answer"; when no question is pending and the full
intent classification raises (or its closed-`Literal` validation fails),
the router routes to `general_enquiry`.  In no case is an error emitted or
the message dropped. -/
theorem classification_failure_defaults (s : AppState) (o : Oracle) (t c : String)
    (hlast : s.messages.getLast? = some (.user t))
    (hblank : isBlank t = false) :
    classify_user_response none = "answer" ∧
    (listInfixOf "answer".toList (stripThenLower c) = false →
      listInfixOf "general_enquiry".toList (stripThenLower c) = false →
      listInfixOf "general".toList (stripThenLower c) = false →
      classify_user_response (some c) = "answer") ∧
    (boolTruthy s.awaiting_user_response = true → o.pendingResp = none →
      (intent_analyser s o).next_node = some .baseCollectorN ∧
      (intent_analyser s o).user_answer_category = some (some "answer")) ∧
    (boolTruthy s.awaiting_user_response = false →
      ¬(optStrTruthy s.incomplete_session_id = true ∧
        lowerThenStrip t ∈ resumeTokens.map String.toList) →
      o.intentResult = none →
      (intent_analyser s o).next_node = some .generalEnquiryN) := by
  refine ⟨rfl, ?_, ?_, ?_⟩
  · intro h1 h2 h3
    simp at h1 h2 h3
    simp [classify_user_response, h1, h2, h3]
  · intro hw hp
    simp [intent_analyser, hlast, Msg.contentStr, hblank, hw, hp, classify_user_response]
  · intro hw hov hi
    have hcond : ¬(optStrTruthy s.incomplete_session_id = true ∧
        ∃ a ∈ resumeTokens, a.data = lowerThenStrip t) := by
      simpa using hov
    simp [intent_analyser, hlast, Msg.contentStr, hblank, hw, hi, hcond]

/-- Claim C8, witness: both fallbacks at concrete states. -/
theorem classification_failure_defaults_witness :
    (intent_analyser
        { initialState with
            messages := [.user "tourism"], awaiting_user_response := some true }
        {}).next_node = some .baseCollectorN ∧
    (intent_analyser { initialState with messages := [.user "hello there"] }
        {}).next_node = some .generalEnquiryN :=
  ⟨((classification_failure_defaults
      { initialState with
          messages := [.user "tourism"], awaiting_user_response := some true }
      {} "tourism" "ignored" rfl (by decide)).2.2.1 rfl rfl).1,
   (classification_failure_defaults
      { initialState with messages := [.user "hello there"] }
      {} "hello there" "ignored" rfl (by decide)).2.2.2 rfl (by decide) rfl⟩

/-- Folding `routeOneDoc` distributes each document into the bucket chosen
by its `document_type`, in input order, after whatever the accumulator
already holds. -/
theorem routeFold_spec (documents : List ParsedDoc) (acc : DocRoute) :
    (documents.foldl routeOneDoc acc).passport_info =
      acc.passport_info ++
        (documents.filter (fun d => d.document_type == "passport")).map
          (fun d => BucketEntry.fieldsOnly d.content) ∧
    (documents.foldl routeOneDoc acc).accommodation_info =
      acc.accommodation_info ++
        (documents.filter (fun d => d.document_type == "hotel_booking")).map
          (fun d => BucketEntry.fieldsOnly d.content) ∧
    (documents.foldl routeOneDoc acc).financial_info =
      acc.financial_info ++
        (documents.filter (fun d => d.document_type == "bank_statement")).map
          (fun d => BucketEntry.fieldsOnly d.content) ∧
    (documents.foldl routeOneDoc acc).document_uploads =
      acc.document_uploads ++
        (documents.filter (fun d => !(d.document_type == "passport") &&
            !(d.document_type == "hotel_booking") &&
            !(d.document_type == "bank_statement"))).map
          (fun d => BucketEntry.wholeDoc d.document_type d.content d.file_path d.summary) := by
  induction documents generalizing acc with
  | nil => simp
  | cons d rest ih =>
    by_cases h1 : d.document_type = "passport"
    · simp [routeOneDoc, h1, ih]
    · by_cases h2 : d.document_type = "hotel_booking"
      · simp [routeOneDoc, h1, h2, ih]
      · by_cases h3 : d.document_type = "bank_statement"
        · simp [routeOneDoc, h1, h2, h3, ih]
        · simp [routeOneDoc, h1, h2, h3, ih]

/-- Claim C9, counterexample: for a document of unrecognized type the code
appends the WHOLE parsed record (type, content, file path, summary) to
`document_uploads`, not just the document's fields. -/
theorem unknown_doc_appends_whole_record :
    (route_documents_to_state
        [⟨"visa_form", [("field_a", "1")], "C:/form.jpg", "a visa form"⟩]).document_uploads =
      [.wholeDoc "visa_form" [("field_a", "1")] "C:/form.jpg" "a visa form"] ∧
    (route_documents_to_state
        [⟨"visa_form", [("field_a", "1")], "C:/form.jpg", "a visa form"⟩]).document_uploads ≠
      [.fieldsOnly [("field_a", "1")]] := by
  decide

/-- Claim C9 (amended): each parsed document is appended to exactly the
bucket named by its type (`passport→passport_info`,
`hotel_booking→accommodation_info`, `bank_statement→financial_info`,
anything else→`document_uploads`), appends follow input order, duplicates
are appended again, and buckets for other types receive nothing — but for
the three known types what is appended is the document's `content` fields,
while for every other type the whole parsed-document record is appended. -/
theorem document_routing (documents : List ParsedDoc) :
    (route_documents_to_state documents).passport_info =
      (documents.filter (fun d => d.document_type == "passport")).map
        (fun d => BucketEntry.fieldsOnly d.content) ∧
    (route_documents_to_state documents).accommodation_info =
      (documents.filter (fun d => d.document_type == "hotel_booking")).map
        (fun d => BucketEntry.fieldsOnly d.content) ∧
    (route_documents_to_state documents).financial_info =
      (documents.filter (fun d => d.document_type == "bank_statement")).map
        (fun d => BucketEntry.fieldsOnly d.content) ∧
    (route_documents_to_state documents).document_uploads =
      (documents.filter (fun d => !(d.document_type == "passport") &&
          !(d.document_type == "hotel_booking") &&
          !(d.document_type == "bank_statement"))).map
        (fun d => BucketEntry.wholeDoc d.document_type d.content d.file_path d.summary) := by
  simpa [route_documents_to_state] using routeFold_spec documents {}

/-- Claim C7, counterexample: a reachable state with
`collection_in_progress = true` and a completely empty fields mapping.
Turn 1 starts an application whose message yields no extractable slots
(the collector stores `initial_info = {}` and asks for everything); turn 2
diverts to a general enquiry, which sets `collection_in_progress = true`
while the fields are still empty. -/
theorem cip_true_with_empty_fields_reachable :
    ∃ s : AppState, Reachable s ∧
      s.collection_in_progress = some true ∧
      s.initial_info = InitialInfo.empty ∧
      s.initial_info.dictTruthy = false := by
  refine ⟨processTurn
      (processTurn initialState "I want to apply for a visa"
        { intentResult := some .visaApplicationI
          extraction := .success ⟨none, none, none, none⟩ })
      "what documents do I need"
      { pendingResp := some "general_enquiry"
        extraction := .success ⟨none, none, none, none⟩ },
    ?_, ?_, ?_, ?_⟩
  · exact Reachable.step _ _ _ (Reachable.step _ _ _ Reachable.init)
  · decide
  · decide
  · decide

/-- Claim C7 (amended): the divert path sets `collection_in_progress=true`
and snapshots the current fields while leaving `initial_info` unchanged;
it therefore preserves the invariant only when the fields were already
non-empty, and in general `collection_in_progress = true` does NOT imply a
non-empty fields mapping (the divert can fire before any slot was
filled). -/
theorem divert_sets_cip_keeps_fields (s : AppState) (o : Oracle) (t : String)
    (hlast : s.messages.getLast? = some (.user t))
    (hblank : isBlank t = false)
    (hawait : boolTruthy s.awaiting_user_response = true)
    (hcls : classify_user_response o.pendingResp = "general_enquiry") :
    (intent_analyser s o).collection_in_progress = some true ∧
    (intent_analyser s o).initial_info = none ∧
    (intent_analyser s o).incomplete_initial_info = some s.initial_info ∧
    (applyUpdate s (intent_analyser s o)).initial_info = s.initial_info ∧
    (applyUpdate s (intent_analyser s o)).collection_in_progress = some true := by
  simp [intent_analyser, hlast, Msg.contentStr, hblank, hawait, hcls, applyUpdate]

/-- Claim C7, witness for the amended theorem: divert with non-empty fields. -/
theorem divert_sets_cip_keeps_fields_witness :
    (intent_analyser
        { initialState with
            messages := [.user "what documents do I need"]
            awaiting_user_response := some true
            initial_info := ⟨some "France", none, none, none⟩ }
        { pendingResp := some "general_enquiry" }).collection_in_progress = some true :=
  (divert_sets_cip_keeps_fields
    { initialState with
        messages := [.user "what documents do I need"]
        awaiting_user_response := some true
        initial_info := ⟨some "France", none, none, none⟩ }
    { pendingResp := some "general_enquiry" }
    "what documents do I need" rfl (by decide) rfl (by decide)).1

end VisaAgent
